import Mathlib

/-!
Verification of the ShelfSight per-frame detection pipeline.

The repository has two source files:

* `src/utils/distance.ts` — pure distance/direction utilities, followed (in the
  same file, after a document separator) by a front-end variant of
  `src/pages/index.tsx` that builds candidates inline, sorts them by distance,
  and throttles voice announcements with a 3000 ms cooldown keyed by the object
  class.  That variant is embedded below in namespace `Basic`.
* `src/pages/index.tsx` — a front-end variant with IoU-based identity tracking,
  exponential-moving-average smoothing and a stability filter
  (`MIN_FRAMES_FOR_STABILITY = 5`).  It is embedded below in namespace
  `Tracked`.

JavaScript numbers are modelled as rationals (`ℚ`), timestamps as integers
(`ℤ`, milliseconds), and the insertion-ordered JavaScript objects / `Map`s as
association lists.  `Array.prototype.sort` with an ascending numeric comparator
is modelled as the stable `List.mergeSort`.
-/

namespace ShelfSight

attribute [local semireducible] Rat.add Rat.sub Rat.mul Rat.inv Rat.ofScientific
  List.merge List.mergeSort

/-- JavaScript `String.prototype.toLowerCase` (all labels are ASCII). -/
def jsToLower (s : String) : String := ⟨s.data.map Char.toLower⟩

/-! ### `src/utils/distance.ts` -/

/-- The `KNOWN_OBJECT_HEIGHTS` lookup table of `src/utils/distance.ts`:
assumed real-world object heights in meters, keyed by lower-cased label. -/
def KNOWN_OBJECT_HEIGHTS : List (String × ℚ) := [
  ("person", 1.7),
  ("chair", 0.9), ("couch", 0.8), ("bench", 0.5),
  ("dining table", 0.75), ("desk", 0.75), ("coffee table", 0.45),
  ("bed", 0.6), ("bookshelf", 1.8), ("cabinet", 1.5), ("dresser", 1.2),
  ("nightstand", 0.6),
  ("refrigerator", 1.7), ("oven", 0.9), ("microwave", 0.4), ("sink", 0.9),
  ("dishwasher", 0.9), ("stove", 0.9), ("toaster", 0.2),
  ("toilet", 0.75), ("bathtub", 0.5), ("shower", 2.0),
  ("tv", 0.6), ("laptop", 0.02), ("monitor", 0.5), ("keyboard", 0.03),
  ("mouse", 0.04), ("cell phone", 0.15), ("remote", 0.15),
  ("door", 2.0), ("window", 1.5),
  ("bottle", 0.25), ("cup", 0.12), ("bowl", 0.08), ("plate", 0.02),
  ("glass", 0.15), ("vase", 0.3),
  ("potted plant", 0.5), ("plant", 0.4), ("clock", 0.3), ("painting", 0.6),
  ("mirror", 1.2),
  ("backpack", 0.4), ("handbag", 0.3), ("suitcase", 0.6), ("purse", 0.25),
  ("book", 0.25), ("pencil", 0.15), ("scissors", 0.2), ("stapler", 0.08),
  ("printer", 0.4),
  ("ball", 0.22), ("sports ball", 0.22), ("bicycle", 1.1),
  ("skateboard", 0.15),
  ("dog", 0.5), ("cat", 0.3), ("bird", 0.15),
  ("umbrella", 0.9), ("tie", 0.4), ("hat", 0.15), ("shoe", 0.12),
  ("fire hydrant", 0.8), ("stop sign", 2.2), ("parking meter", 1.2),
  ("trash", 0.6), ("trash can", 0.9), ("bin", 0.6), ("basket", 0.4),
  ("box", 0.4), ("bag", 0.3), ("pillow", 0.15), ("blanket", 0.1),
  ("towel", 0.8), ("curtain", 2.0), ("rug", 0.02), ("mat", 0.02),
  ("fork", 0.18), ("knife", 0.2), ("spoon", 0.15), ("spatula", 0.25),
  ("pan", 0.08), ("pot", 0.15), ("kettle", 0.25),
  ("lamp", 0.5), ("table lamp", 0.4), ("floor lamp", 1.5),
  ("ceiling light", 0.3),
  ("fire extinguisher", 0.6), ("first aid kit", 0.3), ("smoke", 0.2)]

def FOCAL_LENGTH_REFERENCE : ℚ := 600

/-- JavaScript `Math.max` on two (non-NaN) numbers. -/
def jsMax (a b : ℚ) : ℚ := if a < b then b else a

/-- JavaScript `Math.min` on two (non-NaN) numbers. -/
def jsMin (a b : ℚ) : ℚ := if a < b then a else b

/-- `estimateDistance` of `src/utils/distance.ts` (lines 132–141):
`KNOWN_OBJECT_HEIGHTS[objectClass.toLowerCase()] || 1.0`, then
`(knownHeight * FOCAL_LENGTH_REFERENCE) / pixelHeight` clamped by
`Math.max(0.5, Math.min(10, distance))`.  The `imageHeight` parameter is unused
by the source as well. -/
def estimateDistance (objectClass : String) (boundingBoxHeight : ℚ)
    (imageHeight : ℚ) : ℚ :=
  let knownHeight := (KNOWN_OBJECT_HEIGHTS.lookup (jsToLower objectClass)).getD 1.0
  let pixelHeight := boundingBoxHeight
  let distance := knownHeight * FOCAL_LENGTH_REFERENCE / pixelHeight
  jsMax 0.5 (jsMin 10 distance)

/-- `getDirection` of `src/utils/distance.ts` (lines 143–156). -/
def getDirection (boxCenterX : ℚ) (imageWidth : ℚ) : String :=
  let normalizedX := boxCenterX / imageWidth
  if normalizedX < 0.35 then "left"
  else if normalizedX > 0.65 then "right"
  else "center"

/-- Spec-side clamp: `clamp(v, lo, hi)`. -/
def clamp (lo hi v : ℚ) : ℚ := max lo (min hi v)

/-- An axis-aligned bounding box `[x, y, width, height]` in pixel units. -/
structure BBox where
  x : ℚ
  y : ℚ
  w : ℚ
  h : ℚ
deriving DecidableEq

/-- The detector's `Detection` interface: `{class, score, bbox}`. -/
structure Detection where
  cls : String
  score : ℚ
  bbox : BBox
deriving DecidableEq

/-- The `ProductDetection` interface: a `Detection` extended with the estimated
`distance` (meters) and spatial `position` (`"left"` / `"center"` / `"right"`). -/
structure ProductDetection where
  cls : String
  score : ℚ
  bbox : BBox
  distance : ℚ
  position : String
deriving DecidableEq

/-- JavaScript `Math.round`: the closest integer, half-way cases towards `+∞`. -/
def jsRound (q : ℚ) : ℤ := ⌊q + 1 / 2⌋

/-- JavaScript `Number.prototype.toFixed(1)` on a non-negative number:
the integer `n` with `n / 10` closest to the value (larger `n` on ties),
printed with one decimal digit. -/
def jsToFixed1 (q : ℚ) : String :=
  let n := ⌊q * 10 + 1 / 2⌋
  toString (n / 10) ++ "." ++ toString (n % 10)

/-!
### The `Basic` front-end variant

The variant of `src/pages/index.tsx` stored alongside `src/utils/distance.ts`
(after the document separator): inline candidate building with a `0.4`
confidence threshold, distance clamp `[0.3, 10]`, ascending sort by distance,
a display list truncated to 5 entries, and a voice announcement gate with a
3000 ms cooldown keyed by the detection's class.
-/

namespace Basic

/-- The `KNOWN_HEIGHTS` table of the `Basic` front end. -/
def KNOWN_HEIGHTS : List (String × ℚ) := [
  ("person", 1.7), ("bottle", 0.25), ("cup", 0.12), ("bowl", 0.08),
  ("cell phone", 0.15), ("book", 0.25), ("laptop", 0.02), ("mouse", 0.04),
  ("keyboard", 0.03), ("apple", 0.08), ("banana", 0.2), ("orange", 0.09),
  ("chair", 0.9), ("dining table", 0.75), ("car", 1.5), ("dog", 0.5),
  ("cat", 0.3), ("backpack", 0.4), ("handbag", 0.3), ("tie", 0.4),
  ("suitcase", 0.6), ("frisbee", 0.02), ("skis", 1.7), ("snowboard", 1.5),
  ("sports ball", 0.22), ("kite", 0.8), ("baseball bat", 0.85),
  ("baseball glove", 0.25), ("skateboard", 0.15), ("surfboard", 2.1),
  ("tennis racket", 0.7), ("wine", 0.3), ("fork", 0.18), ("knife", 0.2),
  ("spoon", 0.15), ("sandwich", 0.08), ("cake", 0.15), ("carrot", 0.2),
  ("hot dog", 0.15), ("pizza", 0.03), ("donut", 0.08), ("broccoli", 0.15)]

/-- The reference height used for a detection:
`KNOWN_HEIGHTS[prediction.class.toLowerCase()] || 0.3`. -/
def knownHeightOf (cls : String) : ℚ :=
  (KNOWN_HEIGHTS.lookup (jsToLower cls)).getD 0.3

/-- The inline spatial-zone ternary of `detectObjects`:
`centerX < canvas.width * 0.35 ? 'left' : centerX > canvas.width * 0.65 ?
'right' : 'center'`. -/
def positionOf (centerX canvasWidth : ℚ) : String :=
  if centerX < canvasWidth * 0.35 then "left"
  else if centerX > canvasWidth * 0.65 then "right"
  else "center"

/-- The `.map` body of `detectObjects`: build a `ProductDetection` from a raw
prediction, estimating `distance = (knownHeight * 600) / height` clamped by
`Math.max(0.3, Math.min(10, distance))`. -/
def buildDetection (canvasWidth : ℚ) (p : Detection) : ProductDetection :=
  let knownHeight := knownHeightOf p.cls
  let distance := knownHeight * 600 / p.bbox.h
  let centerX := p.bbox.x + p.bbox.w / 2
  { cls := p.cls
    score := p.score
    bbox := p.bbox
    distance := jsMax 0.3 (jsMin 10 distance)
    position := positionOf centerX canvasWidth }

/-- The confidence filter of `detectObjects`:
`.filter((p: Detection) => p.score > 0.4)`. -/
def confidenceFilter (predictions : List Detection) : List Detection :=
  predictions.filter fun p => decide (p.score > 0.4)

/-- The candidate-building core of `detectObjects` (`Basic` variant, lines
260–278): filter by confidence, map to `ProductDetection`, and sort ascending
by distance (`.sort((a, b) => a.distance - b.distance)`). -/
def detectObjects (canvasWidth : ℚ) (predictions : List Detection) :
    List ProductDetection :=
  ((confidenceFilter predictions).map (buildDetection canvasWidth)).mergeSort
    fun a b => decide (a.distance ≤ b.distance)

/-- The rendered result list: `detections.slice(0, 5)`. -/
def displayedDetections (detections : List ProductDetection) :
    List ProductDetection :=
  detections.take 5

/-- The `lastAnnouncement` record: label → timestamp of last announcement,
insertion-ordered with later writes shadowing earlier ones. -/
structure AnnouncementState where
  lastAnnouncement : List (String × ℤ)
deriving DecidableEq

/-- `lastAnnouncement[key] || 0`. -/
def lastTimeOf (s : AnnouncementState) (key : String) : ℤ :=
  (s.lastAnnouncement.lookup key).getD 0

/-- The announcement text of `announceDetection`, selected by distance band. -/
def buildAnnouncement (d : ProductDetection) : String :=
  if d.distance < 0.5 then
    d.cls ++ " very close, in your hand"
  else if d.distance < 1.0 then
    d.cls ++ ", " ++ toString (jsRound (d.distance * 100)) ++ " centimeters away"
  else if d.distance < 2.0 then
    d.cls ++ ", " ++ jsToFixed1 d.distance ++ " meters, " ++ d.position
  else
    d.cls ++ " detected, far away"

/-- `announceDetection` of the `Basic` front end (lines 347–373): suppress when
`!forceAnnounce && now - lastTime < 3000`, otherwise record `now` under the
class key and emit the description. -/
def announceDetection (s : AnnouncementState) (detection : ProductDetection)
    (now : ℤ) (forceAnnounce : Bool) : Option String × AnnouncementState :=
  let key := detection.cls
  let lastTime := lastTimeOf s key
  if !forceAnnounce && decide (now - lastTime < 3000) then
    (none, s)
  else
    (some (buildAnnouncement detection), ⟨(key, now) :: s.lastAnnouncement⟩)

end Basic

/-!
### The `Tracked` front-end variant

The variant at `src/pages/index.tsx` (top-level document): the same candidate
building followed by IoU-based identity tracking across frames with
exponential-moving-average smoothing, staleness removal, and a stability
filter that exposes a track only once it has been seen for
`MIN_FRAMES_FOR_STABILITY = 5` consecutive frames.
-/

namespace Tracked

/-- The `TrackedDetection` interface: a `ProductDetection` extended with the
tracking fields `id`, `frameCount`, `lastSeen`, `smoothedDistance`,
`smoothedBbox`. -/
structure TrackedDetection where
  cls : String
  score : ℚ
  bbox : BBox
  distance : ℚ
  position : String
  id : String
  frameCount : ℕ
  lastSeen : ℤ
  smoothedDistance : ℚ
  smoothedBbox : BBox
deriving DecidableEq

/-- `calculateIoU` (lines 104–121): Intersection-over-Union of two
axis-aligned boxes, `0` when they do not overlap. -/
def calculateIoU (bbox1 bbox2 : BBox) : ℚ :=
  let xLeft := jsMax bbox1.x bbox2.x
  let yTop := jsMax bbox1.y bbox2.y
  let xRight := jsMin (bbox1.x + bbox1.w) (bbox2.x + bbox2.w)
  let yBottom := jsMin (bbox1.y + bbox1.h) (bbox2.y + bbox2.h)
  if xRight < xLeft ∨ yBottom < yTop then 0
  else
    let intersectionArea := (xRight - xLeft) * (yBottom - yTop)
    let unionArea := bbox1.w * bbox1.h + bbox2.w * bbox2.h - intersectionArea
    intersectionArea / unionArea

def SMOOTHING_ALPHA : ℚ := 0.3
def MIN_FRAMES_FOR_STABILITY : ℕ := 5
def MAX_TRACKING_AGE_MS : ℤ := 600
def MAX_DISPLAY_OBJECTS : ℕ := 5
def MAX_DETECTION_DISTANCE : ℚ := 4.0

/-- JavaScript `Map.prototype.set`: overwrite in place when the key exists,
append otherwise. -/
def setEntry (m : List (String × TrackedDetection)) (id : String)
    (t : TrackedDetection) : List (String × TrackedDetection) :=
  if m.any (fun e => e.1 == id) then
    m.map fun e => if e.1 == id then (id, t) else e
  else
    m ++ [(id, t)]

/-- The best-match search of `detectObjects` (lines 367–380): walk the tracked
map in insertion order, keeping the first entry of the same class whose IoU
with the candidate's box both exceeds `0.2` and strictly improves on the best
IoU so far. -/
def findBestMatch (m : List (String × TrackedDetection))
    (detection : ProductDetection) : Option TrackedDetection :=
  (m.foldl
    (fun acc e =>
      if e.2.cls = detection.cls then
        let iou := calculateIoU detection.bbox e.2.smoothedBbox
        if iou > 0.2 ∧ iou > acc.2 then (some e.2, iou) else acc
      else acc)
    ((none : Option TrackedDetection), (0 : ℚ))).1

/-- Componentwise exponential moving average of the bounding box:
`α * new + (1 - α) * smoothed`. -/
def smoothBBox (newBox oldBox : BBox) : BBox :=
  { x := SMOOTHING_ALPHA * newBox.x + (1 - SMOOTHING_ALPHA) * oldBox.x
    y := SMOOTHING_ALPHA * newBox.y + (1 - SMOOTHING_ALPHA) * oldBox.y
    w := SMOOTHING_ALPHA * newBox.w + (1 - SMOOTHING_ALPHA) * oldBox.w
    h := SMOOTHING_ALPHA * newBox.h + (1 - SMOOTHING_ALPHA) * oldBox.h }

/-- The per-candidate matching step of `detectObjects` (lines 367–422).  The
state is the tracked map together with the `updatedIds` set. -/
def processDetection (st : List (String × TrackedDetection) × List String)
    (detection : ProductDetection) (currentTime : ℤ) :
    List (String × TrackedDetection) × List String :=
  match findBestMatch st.1 detection with
  | some bestMatch =>
      let id := if bestMatch.id = "" then
          bestMatch.cls ++ "_" ++ toString ⌊bestMatch.smoothedBbox.x⌋
        else bestMatch.id
      let sDist := SMOOTHING_ALPHA * detection.distance +
        (1 - SMOOTHING_ALPHA) * bestMatch.smoothedDistance
      let sBox := smoothBBox detection.bbox bestMatch.smoothedBbox
      let updated : TrackedDetection :=
        { bestMatch with
          frameCount := bestMatch.frameCount + 1
          lastSeen := currentTime
          score := detection.score
          id := id
          smoothedDistance := sDist
          smoothedBbox := sBox
          bbox := sBox
          distance := sDist
          position := detection.position }
      (setEntry st.1 id updated, id :: st.2)
  | none =>
      let id := detection.cls ++ "_" ++ toString ⌊detection.bbox.x⌋ ++ "_" ++
        toString currentTime
      let tracked : TrackedDetection :=
        { cls := detection.cls
          score := detection.score
          bbox := detection.bbox
          distance := detection.distance
          position := detection.position
          id := id
          frameCount := 1
          lastSeen := currentTime
          smoothedDistance := detection.distance
          smoothedBbox := detection.bbox }
      (setEntry st.1 id tracked, id :: st.2)

/-- The staleness sweep (lines 425–431): delete every entry that was not
updated this frame and whose `lastSeen` is more than `MAX_TRACKING_AGE_MS`
in the past. -/
def removeStale (st : List (String × TrackedDetection) × List String)
    (currentTime : ℤ) : List (String × TrackedDetection) :=
  st.1.filter fun e =>
    !(!(st.2.contains e.1) &&
      decide (currentTime - e.2.lastSeen > MAX_TRACKING_AGE_MS))

/-- One frame of the identity tracker (lines 357–431): match every raw
detection against the tracked map, then sweep out stale entries. -/
def trackFrame (m : List (String × TrackedDetection))
    (rawDetections : List ProductDetection) (currentTime : ℤ) :
    List (String × TrackedDetection) :=
  removeStale
    (rawDetections.foldl (fun st d => processDetection st d currentTime)
      (m, []))
    currentTime

/-- The stability filter and ranker (lines 438–445): keep only tracks with
`frameCount ≥ MIN_FRAMES_FOR_STABILITY`, fresh within the tracking window and
within `MAX_DETECTION_DISTANCE`, sort ascending by smoothed distance, and keep
the closest `MAX_DISPLAY_OBJECTS`. -/
def stableDetections (m : List (String × TrackedDetection))
    (currentTime : ℤ) : List TrackedDetection :=
  (((m.map Prod.snd).filter fun t =>
      decide (t.frameCount ≥ MIN_FRAMES_FOR_STABILITY) &&
      decide (currentTime - t.lastSeen ≤ MAX_TRACKING_AGE_MS) &&
      decide (t.smoothedDistance ≤ MAX_DETECTION_DISTANCE)).mergeSort
    fun a b => decide (a.smoothedDistance ≤ b.smoothedDistance)).take
    MAX_DISPLAY_OBJECTS

/-- The scenario detection of the spec: the detector reports
`{label:"bottle", confidence:0.8, box:[100,100,50,200]}` every frame.
With reference height `0.25` m its estimated distance is `0.75` m. -/
def bottleDetection : ProductDetection :=
  { cls := "bottle"
    score := 0.8
    bbox := ⟨100, 100, 50, 200⟩
    distance := 0.75
    position := "left" }

/-- The tracked map after `n` frames of the bottle scenario, frames 30 ms
apart (frame `i` runs at time `30 * (i - 1)`). -/
def scenarioTracks : ℕ → List (String × TrackedDetection)
  | 0 => []
  | n + 1 => trackFrame (scenarioTracks n) [bottleDetection] (30 * n)

/-- The confirmed output produced by frame `i` of the bottle scenario. -/
def scenarioOutput (i : ℕ) : List TrackedDetection :=
  stableDetections (scenarioTracks i) (30 * (i - 1))

end Tracked

/-! ## Helper lemmas -/

theorem jsMax_eq_max (a b : ℚ) : jsMax a b = max a b := by
  simp only [jsMax]
  split_ifs with h
  · exact (max_eq_right h.le).symm
  · exact (max_eq_left (not_lt.mp h)).symm

theorem jsMin_eq_min (a b : ℚ) : jsMin a b = min a b := by
  simp only [jsMin]
  split_ifs with h
  · exact (min_eq_left h.le).symm
  · exact (min_eq_right (not_lt.mp h)).symm

theorem jsClamp_bounds (lo hi v : ℚ) (h : lo ≤ hi) :
    lo ≤ jsMax lo (jsMin hi v) ∧ jsMax lo (jsMin hi v) ≤ hi := by
  simp only [jsMax, jsMin]
  split_ifs <;> constructor <;> linarith

/-! ## Claims -/

/-- Claim C1: for every detection, the estimated distance equals
`clamp(referenceHeight(lower-cased label, with fallback) * 600 / box height,
distanceMin, distanceMax)`; in particular for label `"bottle"` (reference
height 0.25 m, focal constant 600) and a box height of 200 pixels the result
is exactly 0.75 m — in the candidate builder of `detectObjects` (clamp bounds
0.3/10) and in `estimateDistance` of `distance.ts` (clamp bounds 0.5/10). -/
theorem claim1_distance_formula :
    (∀ (canvasWidth : ℚ) (p : Detection),
      (Basic.buildDetection canvasWidth p).distance =
        clamp 0.3 10 (Basic.knownHeightOf p.cls * 600 / p.bbox.h)) ∧
    (Basic.buildDetection 640 ⟨"bottle", 0.8, ⟨100, 100, 50, 200⟩⟩).distance
      = 0.75 ∧
    (∀ imageHeight : ℚ, estimateDistance "bottle" 200 imageHeight = 0.75) := by
  refine ⟨fun w p => ?_, by decide, fun ih => ?_⟩
  · simp only [Basic.buildDetection, clamp, jsMax_eq_max, jsMin_eq_min]
  · have h : estimateDistance "bottle" 200 0 = 0.75 := by decide
    exact h

/-- Claim C9: `estimateDistance` is total and always returns a value in the
closed interval `[0.5, 10]`, for every label string and every bounding-box
height, including zero and negative heights. -/
theorem claim9_estimateDistance_bounded (objectClass : String)
    (boundingBoxHeight imageHeight : ℚ) :
    0.5 ≤ estimateDistance objectClass boundingBoxHeight imageHeight ∧
    estimateDistance objectClass boundingBoxHeight imageHeight ≤ 10 :=
  jsClamp_bounds 0.5 10 _ (by norm_num)

/-- Claim C10: `getDirection` is total: for every box center x-coordinate and
every image width (including zero and negative widths) it returns one of
`"left"`, `"center"`, `"right"`. -/
theorem claim10_getDirection_total (boxCenterX imageWidth : ℚ) :
    getDirection boxCenterX imageWidth = "left" ∨
    getDirection boxCenterX imageWidth = "center" ∨
    getDirection boxCenterX imageWidth = "right" := by
  simp only [getDirection]
  split_ifs <;> simp

/-- Claim C4: the spatial zone is `"left"` exactly when the normalized x
(center x over frame width) is below 0.35, `"right"` exactly when above
0.65, and `"center"` otherwise; the inline zone ternary of `detectObjects`
agrees with `getDirection`. -/
theorem claim4_spatial_zone (x w : ℚ) (hw : 0 < w) :
    (getDirection x w = "left" ↔ x / w < 0.35) ∧
    (getDirection x w = "right" ↔ x / w > 0.65) ∧
    (getDirection x w = "center" ↔ 0.35 ≤ x / w ∧ x / w ≤ 0.65) ∧
    Basic.positionOf x w = getDirection x w := by
  have hL : (x < w * 0.35) = (x / w < 0.35) := by
    rw [eq_iff_iff, div_lt_iff₀ hw, mul_comm]
  have hR : (x > w * 0.65) = (x / w > 0.65) := by
    rw [eq_iff_iff, gt_iff_lt, gt_iff_lt, lt_div_iff₀ hw, mul_comm]
  refine ⟨?_, ?_, ?_, ?_⟩
  · simp only [getDirection]
    split_ifs with h1 h2 <;> simp_all <;> linarith
  · simp only [getDirection]
    split_ifs with h1 h2 <;> simp_all <;> linarith
  · simp only [getDirection]
    split_ifs with h1 h2 <;> simp_all <;> constructor <;> linarith
  · simp only [Basic.positionOf, getDirection, hL, hR]

theorem claim4_spatial_zone_witness :
    (getDirection 100 640 = "left" ↔ (100 : ℚ) / 640 < 0.35) ∧
    (getDirection 100 640 = "right" ↔ (100 : ℚ) / 640 > 0.65) ∧
    (getDirection 100 640 = "center" ↔
      0.35 ≤ (100 : ℚ) / 640 ∧ (100 : ℚ) / 640 ≤ 0.65) ∧
    Basic.positionOf 100 640 = getDirection 100 640 :=
  claim4_spatial_zone 100 640 (by norm_num)

/-- Claim C5, counterexample: the claim says every detection with confidence
equal to or greater than the 0.4 threshold survives the confidence filter,
but the filter is strict (`p.score > 0.4`): a raw detection with confidence
exactly 0.4 is discarded. -/
theorem claim5_threshold_cex :
    Basic.confidenceFilter [⟨"bottle", 0.4, ⟨100, 100, 50, 200⟩⟩] = [] ∧
    Basic.detectObjects 640 [⟨"bottle", 0.4, ⟨100, 100, 50, 200⟩⟩] = [] := by
  decide

/-- Claim C5, amended: candidate building discards exactly those raw detections
whose confidence is less than or equal to 0.4; a detection survives the
confidence filter iff its confidence is strictly greater than 0.4. -/
theorem claim5_confidence_filter (predictions : List Detection)
    (p : Detection) :
    p ∈ Basic.confidenceFilter predictions ↔ p ∈ predictions ∧ p.score > 0.4 := by
  simp [Basic.confidenceFilter, List.mem_filter]

theorem claim5_confidence_filter_witness :
    (⟨"bottle", 0.8, ⟨100, 100, 50, 200⟩⟩ : Detection) ∈
        Basic.confidenceFilter [⟨"bottle", 0.8, ⟨100, 100, 50, 200⟩⟩] ↔
      (⟨"bottle", 0.8, ⟨100, 100, 50, 200⟩⟩ : Detection) ∈
        [(⟨"bottle", 0.8, ⟨100, 100, 50, 200⟩⟩ : Detection)] ∧
      (⟨"bottle", 0.8, ⟨100, 100, 50, 200⟩⟩ : Detection).score > 0.4 :=
  claim5_confidence_filter _ _

/-- Claim C6: the per-frame output list of `detectObjects` is sorted ascending
by estimated distance (nearest first), and the displayed list
(`detections.slice(0, 5)`) has at most 5 entries. -/
theorem claim6_sorted_and_truncated :
    (∀ (canvasWidth : ℚ) (predictions : List Detection),
      (Basic.detectObjects canvasWidth predictions).Pairwise
        (fun a b => a.distance ≤ b.distance)) ∧
    (∀ detections : List ProductDetection,
      (Basic.displayedDetections detections).length ≤ 5) := by
  constructor
  · intro w preds
    have h := @List.sorted_mergeSort ProductDetection
      (fun a b : ProductDetection => decide (a.distance ≤ b.distance))
      (fun a b c hab hbc => by
        simp only [decide_eq_true_eq] at *
        exact le_trans hab hbc)
      (fun a b => by
        simp only [Bool.or_eq_true, decide_eq_true_eq]
        exact le_total a.distance b.distance)
      ((Basic.confidenceFilter preds).map (Basic.buildDetection w))
    exact h.imp fun hab => of_decide_eq_true hab
  · intro ds
    simp only [Basic.displayedDetections, List.length_take]
    exact min_le_left _ _

/-- Claim C7, counterexample: in the `[0.5 m, 1 m)` band the emitted
description does not include the spatial zone: two detections at 0.75 m that
differ only in their zone (`"left"` vs `"right"`) produce the same
announcement text. -/
theorem claim7_centimeters_zone_cex :
    Basic.buildAnnouncement ⟨"bottle", 0.8, ⟨100, 100, 50, 200⟩, 0.75, "left"⟩ =
      Basic.buildAnnouncement
        ⟨"bottle", 0.8, ⟨100, 100, 50, 200⟩, 0.75, "right"⟩ ∧
    Basic.buildAnnouncement ⟨"bottle", 0.8, ⟨100, 100, 50, 200⟩, 0.75, "left"⟩ =
      "bottle, 75 centimeters away" := by
  decide

/-- Claim C7, amended: the description is selected by distance band — below
0.5 m a "very close / in your hand" phrasing; from 0.5 m up to (but excluding)
1 m a centimeters phrasing *without* the spatial zone; from 1 m up to (but
excluding) 2 m a meters phrasing that includes the spatial zone; otherwise a
far-distance phrasing. -/
theorem claim7_distance_bands (d : ProductDetection) :
    (d.distance < 0.5 →
      Basic.buildAnnouncement d = d.cls ++ " very close, in your hand") ∧
    (0.5 ≤ d.distance → d.distance < 1 →
      Basic.buildAnnouncement d =
        d.cls ++ ", " ++ toString (jsRound (d.distance * 100)) ++
          " centimeters away") ∧
    (1 ≤ d.distance → d.distance < 2 →
      Basic.buildAnnouncement d =
        d.cls ++ ", " ++ jsToFixed1 d.distance ++ " meters, " ++ d.position) ∧
    (2 ≤ d.distance →
      Basic.buildAnnouncement d = d.cls ++ " detected, far away") := by
  simp only [Basic.buildAnnouncement]
  refine ⟨fun h1 => ?_, fun h1 h2 => ?_, fun h1 h2 => ?_, fun h1 => ?_⟩ <;>
    split_ifs with ha hb hc <;> first | rfl | linarith

theorem claim7_distance_bands_witness :
    Basic.buildAnnouncement ⟨"bottle", 0.8, ⟨100, 100, 50, 200⟩, 0.4, "left"⟩ =
      "bottle" ++ " very close, in your hand" ∧
    Basic.buildAnnouncement ⟨"bottle", 0.8, ⟨100, 100, 50, 200⟩, 0.75, "left"⟩ =
      "bottle" ++ ", " ++ toString (jsRound ((0.75 : ℚ) * 100)) ++
        " centimeters away" ∧
    Basic.buildAnnouncement ⟨"bottle", 0.8, ⟨100, 100, 50, 200⟩, 1.5, "left"⟩ =
      "bottle" ++ ", " ++ jsToFixed1 1.5 ++ " meters, " ++ "left" ∧
    Basic.buildAnnouncement ⟨"bottle", 0.8, ⟨100, 100, 50, 200⟩, 2.5, "left"⟩ =
      "bottle" ++ " detected, far away" :=
  ⟨(claim7_distance_bands _).1 (by norm_num),
   (claim7_distance_bands _).2.1 (by norm_num) (by norm_num),
   (claim7_distance_bands _).2.2.1 (by norm_num) (by norm_num),
   (claim7_distance_bands _).2.2.2 (by norm_num)⟩

/-- Claim C2: for a given announcement key, a second announcement attempted less
than 3000 ms after the last emitted one is suppressed (nothing is emitted and
the state is unchanged), one attempted at or after 3000 ms is emitted, and
emitting updates that key's last-announced timestamp to the current time. -/
theorem claim2_announcement_cooldown (s : Basic.AnnouncementState)
    (d : ProductDetection) (now : ℤ) :
    (now - Basic.lastTimeOf s d.cls < 3000 →
      Basic.announceDetection s d now false = (none, s)) ∧
    (3000 ≤ now - Basic.lastTimeOf s d.cls →
      (Basic.announceDetection s d now false).1 =
        some (Basic.buildAnnouncement d) ∧
      Basic.lastTimeOf (Basic.announceDetection s d now false).2 d.cls = now) := by
  constructor
  · intro h
    simp [Basic.announceDetection, h]
  · intro h
    rw [Basic.announceDetection, if_neg (by simp; omega)]
    refine ⟨rfl, ?_⟩
    simp [Basic.lastTimeOf, List.lookup]

theorem claim2_announcement_cooldown_witness :
    (2500 - Basic.lastTimeOf ⟨[("bottle", 1000)]⟩ "bottle" < 3000 ∧
      Basic.announceDetection ⟨[("bottle", 1000)]⟩
          ⟨"bottle", 0.8, ⟨100, 100, 50, 200⟩, 0.75, "left"⟩ 2500 false =
        (none, ⟨[("bottle", 1000)]⟩)) ∧
    (3000 ≤ 4000 - Basic.lastTimeOf ⟨[("bottle", 1000)]⟩ "bottle" ∧
      (Basic.announceDetection ⟨[("bottle", 1000)]⟩
          ⟨"bottle", 0.8, ⟨100, 100, 50, 200⟩, 0.75, "left"⟩ 4000 false).1 =
        some (Basic.buildAnnouncement
          ⟨"bottle", 0.8, ⟨100, 100, 50, 200⟩, 0.75, "left"⟩) ∧
      Basic.lastTimeOf
          (Basic.announceDetection ⟨[("bottle", 1000)]⟩
            ⟨"bottle", 0.8, ⟨100, 100, 50, 200⟩, 0.75, "left"⟩ 4000 false).2
          "bottle" = 4000) :=
  ⟨⟨by decide,
    (claim2_announcement_cooldown ⟨[("bottle", 1000)]⟩
      ⟨"bottle", 0.8, ⟨100, 100, 50, 200⟩, 0.75, "left"⟩ 2500).1 (by decide)⟩,
   ⟨by decide,
    (claim2_announcement_cooldown ⟨[("bottle", 1000)]⟩
      ⟨"bottle", 0.8, ⟨100, 100, 50, 200⟩, 0.75, "left"⟩ 4000).2 (by decide)⟩⟩

/-- Claim C8: the announcement cooldown is keyed by the object class alone, not
by per-object identity: once a detection of class `C` is announced at time
`t`, any detection of the same class attempted within 3000 ms after `t`
(without the force flag) emits nothing and leaves the state unchanged, even
with a different box, distance or zone. -/
theorem claim8_cooldown_keyed_by_class (s : Basic.AnnouncementState)
    (d1 d2 : ProductDetection) (t now : ℤ) (hcls : d2.cls = d1.cls)
    (hemit : (Basic.announceDetection s d1 t false).1.isSome)
    (hlt : now - t < 3000) :
    Basic.announceDetection (Basic.announceDetection s d1 t false).2 d2 now
        false =
      (none, (Basic.announceDetection s d1 t false).2) := by
  have h1 : Basic.announceDetection s d1 t false =
      (some (Basic.buildAnnouncement d1), ⟨(d1.cls, t) :: s.lastAnnouncement⟩) := by
    rw [Basic.announceDetection] at hemit ⊢
    split_ifs at hemit ⊢
    · simp at hemit
    · rfl
  rw [h1]
  have hL : Basic.lastTimeOf ⟨(d1.cls, t) :: s.lastAnnouncement⟩ d2.cls = t := by
    simp [Basic.lastTimeOf, List.lookup, hcls]
  simp [Basic.announceDetection, hL, hlt]

theorem claim8_cooldown_keyed_by_class_witness :
    Basic.announceDetection
        (Basic.announceDetection ⟨[]⟩
          ⟨"bottle", 0.8, ⟨100, 100, 50, 200⟩, 0.75, "left"⟩ 5000 false).2
        ⟨"bottle", 0.9, ⟨400, 50, 60, 220⟩, 1.4, "right"⟩ 6000 false =
      (none,
        (Basic.announceDetection ⟨[]⟩
          ⟨"bottle", 0.8, ⟨100, 100, 50, 200⟩, 0.75, "left"⟩ 5000 false).2) :=
  claim8_cooldown_keyed_by_class ⟨[]⟩
    ⟨"bottle", 0.8, ⟨100, 100, 50, 200⟩, 0.75, "left"⟩
    ⟨"bottle", 0.9, ⟨400, 50, 60, 220⟩, 1.4, "right"⟩ 5000 6000
    (by decide) (by decide) (by decide)

/-- Claim C3: a track never reaches the confirmed output until its consecutive
frame count reaches `MIN_FRAMES_FOR_STABILITY`; with the minimum of 5, frames
1 through 4 of the continuously-detected bottle scenario produce no confirmed
output, and frame 5 produces the bottle with frame count 5. -/
theorem claim3_stability_gate :
    (∀ (m : List (String × Tracked.TrackedDetection)) (now : ℤ),
      (Tracked.stableDetections m now).all
        (fun t => decide (t.frameCount ≥ Tracked.MIN_FRAMES_FOR_STABILITY))) ∧
    Tracked.scenarioOutput 1 = [] ∧
    Tracked.scenarioOutput 2 = [] ∧
    Tracked.scenarioOutput 3 = [] ∧
    Tracked.scenarioOutput 4 = [] ∧
    (Tracked.scenarioOutput 5).map (fun t => (t.cls, t.frameCount)) =
      [("bottle", 5)] := by
  refine ⟨fun m now => ?_, by decide, by decide, by decide, by decide, by decide⟩
  rw [List.all_eq_true]
  intro t ht
  simp only [Tracked.stableDetections] at ht
  have h1 := List.mem_mergeSort.mp (List.mem_of_mem_take ht)
  have h2 := (List.mem_filter.mp h1).2
  simp only [Bool.and_eq_true, decide_eq_true_eq] at h2
  exact decide_eq_true h2.1.1

end ShelfSight
